import Mathlib

/-!
# Verification of the SentinelAI agent-action dispatcher

Shallow embedding of `src/ai-backend/agents/trader_agent.py` (the
`TraderAgent` action dispatcher and its handlers) and of
`src/ai-backend/xai/explainer.py` (`XAIExplainer.explain_decision`).

Modelling conventions:
* Python floats are modelled as exact rationals (`ℚ`); all the arithmetic the
  dispatcher performs (running mean, success rate, trade sizing) is plain
  field arithmetic, so the rational model matches the source formulas
  exactly.
* External nondeterminism (the wall clock, `numpy` random draws, the torch
  model heads, `uuid`, the SHAP library, float string formatting) is supplied
  through explicit oracle records (`Env`, `XEnv`), one per call.
* A Python `try`/`except` body is modelled by returning the handler's
  `except`-branch value at exactly the inputs where the Python body raises;
  calls into external libraries that may raise are oracle `Except` values.
* Python dicts whose keys matter are association lists in insertion order
  (Python dicts iterate in insertion order); `dictInsert` models `d[k] = v`.
-/

set_option linter.unusedVariables false

namespace SentinelAI

/-- Python `abs` on a (rational-modelled) float. -/
def pyabs (q : ℚ) : ℚ := if q < 0 then -q else q

/-- Python `d[k] = v` on an insertion-ordered dict: replace in place if the
key is present, else append. -/
def dictInsert {α : Type} (l : List (String × α)) (k : String) (v : α) :
    List (String × α) :=
  if (l.lookup k).isSome then
    l.map (fun p => if p.1 == k then (k, v) else p)
  else l ++ [(k, v)]

/-- The `performance_metrics` dict built in `TraderAgent.__init__`
(trader_agent.py lines 64-73). -/
structure PerformanceMetrics where
  total_trades : Nat
  successful_trades : Nat
  total_pnl : ℚ
  sharpe_ratio : ℚ
  max_drawdown : ℚ
  avg_response_time : ℚ
  success_rate : ℚ
  total_requests : Nat
  deriving DecidableEq, Repr

/-- All-zero metrics, as in `__init__`. -/
def initMetrics : PerformanceMetrics :=
  { total_trades := 0, successful_trades := 0, total_pnl := 0,
    sharpe_ratio := 0, max_drawdown := 0, avg_response_time := 0,
    success_rate := 0, total_requests := 0 }

/-- The shape of the `PortfolioNet` torch module (trader_agent.py lines
23-54); its weights are out of scope, only its presence on the agent
(`self.model`) matters to the dispatcher. -/
structure PortfolioNet where
  input_size : Nat
  num_assets : Nat
  deriving DecidableEq, Repr

/-- The `parameters` dict of a call, typed by the keys the trader handlers
read (`parameters.get(...)`); a `Option.none` field models an absent key. -/
structure Params where
  assets : List String := []
  target_allocations : List (String × ℚ) := []
  min_trade_size : Option ℚ := Option.none
  time_horizon : Option ℤ := Option.none
  strategies : Option (List String) := Option.none
  asset : Option String := Option.none
  action : Option String := Option.none
  amount : Option ℚ := Option.none

/-- The `treasury_data` dict, typed by the keys the handlers read. -/
structure TreasuryData where
  current_allocations : List (String × ℚ) := []
  total_value_usd : Option ℚ := Option.none

/-- A trade record appended by `_rebalance_portfolio`
(trader_agent.py lines 209-215). -/
structure Trade where
  asset : String
  action : String
  amount : ℚ
  current_allocation : ℚ
  target_allocation : ℚ
  deriving DecidableEq, Repr

/-- The dict built by `_create_execution_plan` (lines 491-498). -/
structure ExecutionPlan where
  execution_order : List String
  estimated_time : Nat
  batch_size : Nat
  priority : String
  deriving DecidableEq, Repr

/-- Per-asset risk entry built by `_analyze_risk` (lines 256-261). -/
structure RiskMetrics where
  var_95 : ℚ
  cvar_95 : ℚ
  volatility : ℚ
  sharpe_ratio : ℚ
  deriving DecidableEq, Repr

/-- Per-strategy entry built by `_predict_yield` (lines 307-312). -/
structure YieldPrediction where
  expected_annual_yield : ℚ
  allocations : List (String × ℚ)
  confidence : ℚ
  risk_adjusted_return : ℚ
  deriving DecidableEq, Repr

/-- The action-specific keys of a handler's success dict (its payload beyond
`success`/`action`/`confidence`/`error`). -/
inductive Payload where
  | empty : Payload
  | rebalanceData (trades : List Trade) (total_trades : Nat)
      (total_trade_value estimated_gas estimated_slippage : ℚ)
      (execution_plan : ExecutionPlan) : Payload
  | riskData (asset_risks : List (String × RiskMetrics)) (portfolio_var_95 : ℚ)
      (risk_level : String) (recommendations : List String) : Payload
  | yieldData (predictions : List (String × YieldPrediction))
      (recommended_strategy : String) (time_horizon_days : ℤ) : Payload
  | tradeData (asset trade_action : Option String)
      (requested_amount executed_amount execution_price slippage gas_cost
        total_cost : ℚ) (transaction_id : String) : Payload
  deriving DecidableEq, Repr

/-- A result dict returned by `execute_action` or a handler.  `action` and
`error` are `Option` because some of the source's result dicts omit those
keys (e.g. the handler `except` branches return only
`success`/`error`/`confidence`). -/
structure ActionResult where
  success : Bool
  action : Option String := Option.none
  confidence : ℚ
  error : Option String := Option.none
  payload : Payload := Payload.empty
  deriving DecidableEq, Repr

/-- The trades list of a rebalance result (empty for any other payload). -/
def ActionResult.tradesList (r : ActionResult) : List Trade :=
  match r.payload with
  | Payload.rebalanceData trades _ _ _ _ _ => trades
  | _ => []

/-- The mutable fields of a `TraderAgent` instance that the dispatcher can
see (trader_agent.py lines 59-75).  `scaler` is the unused
`StandardScaler`. -/
structure TraderAgent where
  agent_id : String
  model : Option PortfolioNet
  scaler : Unit
  is_trained : Bool
  market_data_cache : List (String × ℚ)
  last_predictions : List (String × ℚ)
  performance_metrics : PerformanceMetrics

/-- A freshly constructed agent: zero metrics, empty caches, the
`PortfolioNet(50, 128, 10)` model installed by `_initialize_model`. -/
def mkTraderAgent (agent_id : String) (is_trained : Bool) : TraderAgent :=
  { agent_id := agent_id,
    model := some { input_size := 50, num_assets := 10 },
    scaler := (), is_trained := is_trained,
    market_data_cache := [], last_predictions := [],
    performance_metrics := initMetrics }

/-- Oracle inputs of one `execute_action` call: the elapsed wall-clock time
and every random / model-produced quantity the handlers consume. -/
structure Env where
  elapsed : ℚ
  risk_score : ℚ
  allocations : List ℚ
  expected_return_of : String → ℚ
  hist_var : String → ℚ
  hist_cvar : String → ℚ
  hist_vol : String → ℚ
  hist_mean : String → ℚ
  tradeDraw : ℚ
  txid : String

/-- The failure dict `{"success": False, "error": str(e), "confidence": 0.0}`
returned by every handler's `except` branch; note it carries no `action`
key. -/
def handlerFailure (e : String) : ActionResult :=
  { success := false, confidence := 0, error := some e }

/-- Handler `TraderAgent._optimize_portfolio` (lines 149-190).  With a model present
the body always raises at line 167: `np.sum(allocations * expected_returns)`
multiplies the allocation `numpy` array by the Python *dict* returned by
`_calculate_expected_returns`, a `TypeError`; with `self.model = None` line
160 raises `TypeError` first.  Either way the handler's `except` returns the
failure dict, so the success dict of lines 174-186 is unreachable. -/
def TraderAgent.optimize_portfolio (self : TraderAgent) (parameters : Params)
    (treasury_data : Option TreasuryData) (env : Env) : ActionResult :=
  match self.model with
  | Option.none => handlerFailure "NoneType object is not callable"
  | some _ =>
      handlerFailure "unsupported operand type(s) for *: float and dict"

/-- Handler `TraderAgent._rebalance_portfolio` (lines 192-236).  With
`treasury_data = None` line 196 raises `AttributeError`, caught by the
handler's `except`. -/
def rebalance_portfolio (parameters : Params)
    (treasury_data : Option TreasuryData) : ActionResult :=
  match treasury_data with
  | Option.none => handlerFailure "NoneType object has no attribute get"
  | some td =>
      let total_value := td.total_value_usd.getD 0
      let min_size := parameters.min_trade_size.getD 1000
      let trades := parameters.target_allocations.filterMap (fun p =>
        let current_pct := (td.current_allocations.lookup p.1).getD 0
        let trade_value := (p.2 - current_pct) * total_value
        if pyabs trade_value > min_size then
          some { asset := p.1,
                 action := if trade_value > 0 then "buy" else "sell",
                 amount := pyabs trade_value,
                 current_allocation := current_pct,
                 target_allocation := p.2 }
        else Option.none)
      let total_trade_value := (trades.map Trade.amount).sum
      { success := true,
        action := some "rebalance",
        confidence := 85/100,
        payload := Payload.rebalanceData trades trades.length total_trade_value
          ((trades.length : ℚ) * (1/100) * total_value)
          (total_trade_value * (5/1000))
          { execution_order := trades.map Trade.asset,
            estimated_time := trades.length * 2,
            batch_size := min 3 trades.length,
            priority := "normal" } }

/-- The risk recommendations of `_generate_risk_recommendations`
(lines 457-469). -/
def risk_recommendations (risk_level : String) : List String :=
  if risk_level == "high" then
    ["Consider reducing position sizes or adding hedging instruments",
     "Implement stop-loss orders for high-risk positions"]
  else if risk_level == "medium" then
    ["Monitor positions closely and consider partial profit-taking"]
  else
    ["Current risk level is acceptable for the strategy"]

/-- Handler `TraderAgent._analyze_risk` (lines 238-281).  The per-asset statistics
(`np.percentile`, `np.std`, `np.mean` of RNG-generated return series) are
oracle values.  A negative `time_horizon` with a nonempty asset list makes
`np.random.normal(..., days)` raise `ValueError` inside the loop; with
`treasury_data = None` line 264 raises `AttributeError`; both are caught by
the handler's `except`. -/
def analyze_risk (parameters : Params) (treasury_data : Option TreasuryData)
    (env : Env) : ActionResult :=
  let th := parameters.time_horizon.getD 30
  if parameters.assets ≠ [] ∧ th * 2 < 0 then
    handlerFailure "negative dimensions are not allowed"
  else
    match treasury_data with
    | Option.none => handlerFailure "NoneType object has no attribute get"
    | some td =>
        let risk_metrics : List (String × RiskMetrics) :=
          if th * 2 > 0 then
            parameters.assets.map (fun a =>
              (a, { var_95 := env.hist_var a, cvar_95 := env.hist_cvar a,
                    volatility := env.hist_vol a,
                    sharpe_ratio :=
                      if env.hist_vol a > 0 then env.hist_mean a / env.hist_vol a
                      else 0 }))
          else []
        let portfolio_var : ℚ := (td.current_allocations.map (fun p =>
          match risk_metrics.lookup p.1 with
          | some rm => p.2 * rm.var_95
          | Option.none => 0)).sum
        let risk_level :=
          if portfolio_var > -(5/100) then "low"
          else if portfolio_var > -(10/100) then "medium" else "high"
        { success := true, action := some "risk_analysis",
          confidence := 90/100,
          payload := Payload.riskData risk_metrics portfolio_var risk_level
            (risk_recommendations risk_level) }

/-- Table `_get_strategy_allocations` (lines 471-478); an unknown strategy falls
back to `"moderate"`. -/
def strategy_allocations (strategy : String) : List (String × ℚ) :=
  if strategy == "conservative" then
    [("ETH", 3/10), ("USDC", 5/10), ("AAVE", 2/10)]
  else if strategy == "moderate" then
    [("ETH", 4/10), ("USDC", 3/10), ("AAVE", 2/10), ("UNI", 1/10)]
  else if strategy == "aggressive" then
    [("ETH", 5/10), ("AAVE", 3/10), ("UNI", 2/10)]
  else
    [("ETH", 4/10), ("USDC", 3/10), ("AAVE", 2/10), ("UNI", 1/10)]

/-- One entry of the `predictions` dict of `_predict_yield`
(lines 291-312). -/
def yield_prediction_for (env : Env) (th : ℤ) (strategy : String) :
    YieldPrediction :=
  let allocs := strategy_allocations strategy
  let portfolio_return :=
    (allocs.map (fun p => p.2 * env.expected_return_of p.1)).sum
  let annual_yield := portfolio_return * ((365 : ℚ) / (th : ℚ))
  { expected_annual_yield := annual_yield, allocations := allocs,
    confidence := 3/4, risk_adjusted_return := annual_yield * (8/10) }

/-- Handler `TraderAgent._predict_yield` (lines 283-328).  `time_horizon = 0` with a
nonempty strategy list raises `ZeroDivisionError` at line 305; an empty
strategy list makes `max()` at line 315 raise `ValueError`; both are caught
by the handler's `except`.  `max(keys, key=...)` returns the first key
attaining the maximum, modelled by the strict-greater fold. -/
def predict_yield (parameters : Params) (env : Env) : ActionResult :=
  let strategies :=
    parameters.strategies.getD ["conservative", "moderate", "aggressive"]
  let th := parameters.time_horizon.getD 365
  if strategies ≠ [] ∧ th = 0 then
    handlerFailure "float division by zero"
  else
    let predictions := strategies.foldl
      (fun d s => dictInsert d s (yield_prediction_for env th s)) []
    match predictions with
    | [] => handlerFailure "max() arg is an empty sequence"
    | p :: ps =>
        let best := (ps.foldl (fun b q =>
          if q.2.risk_adjusted_return > b.2.risk_adjusted_return then q else b)
          p).1
        { success := true, action := some "yield_prediction",
          confidence := 8/10,
          payload := Payload.yieldData predictions best th }

/-- Prices of `_get_current_price` (lines 480-489): fixed simulated prices with a
`100.0` default (also hit when the `asset` key is absent, since
`dict.get(None, 100.0)` returns the default). -/
def current_price : Option String → ℚ
  | some "ETH" => 2500
  | some "USDC" => 1
  | some "AAVE" => 120
  | some "UNI" => 17/2
  | _ => 100

/-- Handler `TraderAgent._execute_trade` (lines 330-375).  A missing `amount` key
makes `amount * 0.001` at line 339 raise `TypeError` before the
`total_trades` increment; otherwise the increment at line 346 happens and the
simulated draw (`np.random.random() > 0.05`) picks the success or the
insufficient-liquidity failure dict — the latter carries no `action` key. -/
def TraderAgent.execute_trade (self : TraderAgent) (parameters : Params)
    (env : Env) : TraderAgent × ActionResult :=
  match parameters.amount with
  | Option.none =>
      (self, handlerFailure "unsupported operand type(s) for *: NoneType and float")
  | some amount =>
      let asset := parameters.asset
      let execution_price := current_price asset
      let slippage := amount * (1/1000)
      let gas_cost : ℚ := 50
      let executed_amount := amount - slippage
      let total_cost := amount + gas_cost
      let m := self.performance_metrics
      let self1 := { self with
        performance_metrics := { m with total_trades := m.total_trades + 1 } }
      if env.tradeDraw > 5/100 then
        (self1, { success := true, action := some "execute_trade",
                  confidence := 95/100,
                  payload := Payload.tradeData asset parameters.action amount
                    executed_amount execution_price slippage gas_cost
                    total_cost env.txid })
      else
        (self1, { success := false, confidence := 0,
                  error := some "Trade execution failed - insufficient liquidity" })

/-- The static action registry of `execute_action` (lines 111-120). -/
def registered (action : String) : Bool :=
  action == "optimize_portfolio" || action == "rebalance" ||
  action == "risk_analysis" || action == "yield_prediction" ||
  action == "execute_trade"

/-- The `if`/`elif` dispatch of `execute_action` (lines 111-122):
`Option.none` is the `raise ValueError` branch for an unknown action. -/
def TraderAgent.dispatch (self : TraderAgent) (action : String)
    (parameters : Params) (treasury_data : Option TreasuryData) (env : Env) :
    Option (TraderAgent × ActionResult) :=
  if action == "optimize_portfolio" then
    some (self, self.optimize_portfolio parameters treasury_data env)
  else if action == "rebalance" then
    some (self, rebalance_portfolio parameters treasury_data)
  else if action == "risk_analysis" then
    some (self, analyze_risk parameters treasury_data env)
  else if action == "yield_prediction" then
    some (self, predict_yield parameters env)
  else if action == "execute_trade" then
    some (self.execute_trade parameters env)
  else Option.none

/-- The metrics update of lines 124-136, reached only after a successful
dispatch: the running-mean `avg_response_time` recomputation (the divisor
`total_requests` was already incremented at line 108), the conditional
`successful_trades` increment, and the recomputed `success_rate`. -/
def updateMetricsAfter (self1 : TraderAgent) (success : Bool) (elapsed : ℚ) :
    TraderAgent :=
  let m := self1.performance_metrics
  let tr : ℚ := m.total_requests
  let succ := m.successful_trades + (if success then 1 else 0)
  { self1 with performance_metrics :=
      { m with
        avg_response_time := (m.avg_response_time * (tr - 1) + elapsed) / tr,
        successful_trades := succ,
        success_rate := (succ : ℚ) / tr } }

/-- Dispatcher `TraderAgent.execute_action` (lines 105-147).  `total_requests` is
incremented before the `try`; only a dispatched (registered) action reaches
the metrics update of lines 124-136 — the `except` branch (unknown action)
returns its failure dict with the running mean, `successful_trades` and
`success_rate` left untouched. -/
def TraderAgent.execute_action (self : TraderAgent) (action : String)
    (parameters : Params) (treasury_data : Option TreasuryData) (env : Env) :
    TraderAgent × ActionResult :=
  let m0 := self.performance_metrics
  let self0 := { self with
    performance_metrics := { m0 with total_requests := m0.total_requests + 1 } }
  match self0.dispatch action parameters treasury_data env with
  | Option.none =>
      (self0, { success := false,
                error := some ("Unknown action: " ++ action),
                confidence := 0, action := some action })
  | some (self1, result) =>
      (updateMetricsAfter self1 result.success env.elapsed, result)

/-- The inputs of one call, for reasoning about call sequences. -/
structure CallInput where
  action : String
  parameters : Params
  treasury_data : Option TreasuryData
  env : Env

/-- Run a sequence of `execute_action` calls against an agent. -/
def runCalls (a : TraderAgent) (cs : List CallInput) : TraderAgent :=
  cs.foldl
    (fun s c => (s.execute_action c.action c.parameters c.treasury_data c.env).1)
    a

/-- Sum of the elapsed times of a call sequence. -/
def sumElapsed (cs : List CallInput) : ℚ :=
  (cs.map (fun c => c.env.elapsed)).sum

/-! ## The XAI explainer (`src/ai-backend/xai/explainer.py`) -/

/-- Oracle inputs of one `explain_decision` call: the `uuid`, the outcomes of
the external-library calls that may raise (`RandomForestRegressor.fit` plus
`shap.TreeExplainer` construction; `explainer.shap_values`; the
`asyncio` event-loop clock), the `numpy` feature draws, and the
floating-point string renderings (`:.1%`, `:.3f`) and `np.log`, which are
not rational-exact and so are supplied as oracles. -/
structure XEnv where
  explanation_id : String
  surrogate_create : Except String Unit
  shap_call : Except String (List ℚ)
  clock : Except String ℚ
  randn_trader : List ℚ
  randn_compliance : List ℚ
  randn_supervisor : List ℚ
  randn_advisor : List ℚ
  log_fn : ℚ → ℚ
  fmt_pct : ℚ → String
  fmt3 : ℚ → String

/-- An entry of `self.surrogate_models` (explainer.py lines 199-203); the
fitted random forest and SHAP explainer objects are opaque. -/
structure SurrogateEntry where
  feature_names : List String
  deriving DecidableEq, Repr

/-- An entry of `self.explanation_cache` (lines 110-117). -/
structure CacheEntry where
  agent_type : String
  action : String
  shap_values : List ℚ
  human_explanation : String
  features : List ℚ
  timestamp : ℚ
  deriving DecidableEq, Repr

/-- The mutable fields of an `XAIExplainer` instance (lines 23-30). -/
structure XAIExplainer where
  explainers : List (String × Unit)
  feature_names : List (String × List String)
  explanation_cache : List (String × CacheEntry)
  surrogate_models : List (String × SurrogateEntry)

/-- The feature-name table installed by `_initialize_explainers`
(lines 36-76), verbatim. -/
def featureNamesInit : List (String × List String) :=
  [("trader",
    ["market_volatility", "trading_volume", "price_momentum", "rsi", "macd",
     "bollinger_bands", "support_level", "resistance_level", "market_sentiment",
     "correlation_btc", "correlation_eth", "liquidity_ratio", "gas_price",
     "defi_tvl", "yield_rate", "risk_score", "portfolio_balance", "allocation_drift",
     "sharpe_ratio", "max_drawdown", "beta", "alpha", "sortino_ratio",
     "calmar_ratio", "information_ratio", "treynor_ratio", "tracking_error",
     "downside_deviation", "upside_capture", "downside_capture", "win_rate",
     "profit_factor", "recovery_factor", "payoff_ratio", "expectancy",
     "system_quality", "k_ratio", "lake_ratio", "gain_pain_ratio",
     "sterling_ratio", "burke_ratio", "modified_burke_ratio", "kappa_three",
     "omega_ratio", "var_95", "cvar_95", "tail_ratio", "common_sense_ratio",
     "martin_ratio", "pain_ratio", "ulcer_index", "serenity_ratio"]),
   ("compliance",
    ["transaction_amount", "sender_risk_score", "receiver_risk_score",
     "jurisdiction_risk", "aml_flags", "kyc_status", "transaction_frequency",
     "unusual_pattern", "regulatory_framework", "compliance_score",
     "zk_proof_validity", "privacy_level", "audit_trail", "reporting_requirements",
     "tax_implications", "cross_border", "sanctioned_entities", "pep_status",
     "adverse_media", "transaction_type", "business_relationship",
     "geographic_risk", "product_risk", "channel_risk", "customer_risk"]),
   ("supervisor",
    ["agent_performance", "decision_accuracy", "risk_exposure", "compliance_rate",
     "response_time", "system_load", "error_rate", "human_override_rate",
     "learning_rate", "model_drift", "data_quality", "feature_importance_stability",
     "prediction_confidence", "calibration_score", "fairness_metrics",
     "bias_detection", "adversarial_robustness", "interpretability_score"]),
   ("advisor",
    ["market_conditions", "volatility_index", "fear_greed_index", "economic_indicators",
     "fed_policy", "inflation_rate", "unemployment_rate", "gdp_growth",
     "geopolitical_events", "regulatory_changes", "technology_adoption",
     "institutional_flow", "retail_sentiment", "social_media_buzz",
     "news_sentiment", "correlation_traditional_assets", "crypto_dominance",
     "defi_growth", "nft_activity", "staking_rewards", "network_activity",
     "developer_activity", "github_commits", "protocol_upgrades"])]

/-- A freshly constructed explainer (`XAIExplainer.__init__`). -/
def mkXAIExplainer : XAIExplainer :=
  { explainers := [], feature_names := featureNamesInit,
    explanation_cache := [], surrogate_models := [] }

/-- Method `_create_surrogate_model` (lines 180-208): fit a random forest on
synthetic data and build a SHAP `TreeExplainer` for it; any exception from
those library calls is caught inside, leaving the state unchanged
(only logged), so a failed creation leaves no `surrogate_models` entry. -/
def create_surrogate_model (st : XAIExplainer) (agent_type : String)
    (env : XEnv) : XAIExplainer :=
  match env.surrogate_create with
  | Except.ok _ =>
      let names := (st.feature_names.lookup agent_type).getD []
      { st with surrogate_models :=
          dictInsert st.surrogate_models agent_type { feature_names := names } }
  | Except.error _ => st

/-- Method `_extract_trader_features` (lines 253-265): a random vector with
index 15 overwritten by the `risk_score` result key and index 12 by the
`confidence` result key.  With results typed as `ActionResult` the
`confidence` key is always present; `risk_score` appears only in the
unreachable success dict of `_optimize_portfolio`, so that branch never
fires. -/
def extract_trader_features (env : XEnv) (result : ActionResult) : List ℚ :=
  (env.randn_trader).set 12 result.confidence

/-- Method `_extract_features` (lines 231-251, with the per-type helpers of
lines 253-285): nothing in the bodies can raise, so the internal
`except`-to-zeros branch is unreachable.  An unknown agent type yields
`np.zeros(len(feature_names.get(agent_type, [])))`. -/
def extract_features (st : XAIExplainer) (agent_type : String)
    (parameters : Params) (result : ActionResult) (env : XEnv) : List ℚ :=
  if agent_type == "trader" then extract_trader_features env result
  else if agent_type == "compliance" then
    match parameters.amount with
    | some amt =>
        (env.randn_compliance).set 0 (if amt > 0 then env.log_fn amt else 0)
    | Option.none => env.randn_compliance
  else if agent_type == "supervisor" then env.randn_supervisor
  else if agent_type == "advisor" then env.randn_advisor
  else List.replicate ((st.feature_names.lookup agent_type).getD []).length 0

/-- Method `_get_shap_explanation` (lines 210-229): create the surrogate if
still missing, then call `explainer.shap_values`; a missing surrogate entry
(`KeyError`) or a raising SHAP call is caught and degraded to a zero
vector of the feature-name length. -/
def get_shap_explanation (st : XAIExplainer) (agent_type : String)
    (features : List ℚ) (env : XEnv) : XAIExplainer × List ℚ :=
  let st1 := if (st.surrogate_models.lookup agent_type).isSome then st
             else create_surrogate_model st agent_type env
  match st1.surrogate_models.lookup agent_type with
  | Option.none =>
      (st1, List.replicate ((st1.feature_names.lookup agent_type).getD []).length 0)
  | some _ =>
      match env.shap_call with
      | Except.ok vs => (st1, vs)
      | Except.error _ =>
          (st1, List.replicate ((st1.feature_names.lookup agent_type).getD []).length 0)

/-- Indices of the `k` largest absolute SHAP values in descending order:
`np.argsort(np.abs(shap_values))[-k:][::-1]` (tie order is unspecified in
`numpy` quicksort; a stable sort is used here). -/
def topIndices (vals : List ℚ) (k : Nat) : List Nat :=
  let sorted := (List.range vals.length).mergeSort
    (fun i j => pyabs (vals.getD i 0) ≤ pyabs (vals.getD j 0))
  (sorted.drop (sorted.length - k)).reverse

/-- Python `feature.replace("_", " ").title()` on space-separated words. -/
def titleCase (s : String) : String :=
  " ".intercalate (((s.replace "_" " ").splitOn " ").map String.capitalize)

/-- Method `_generate_trader_explanation` (lines 323-341). -/
def generate_trader_explanation (action : String) (top_features : List String)
    (top_values : List ℚ) (result : ActionResult) (env : XEnv) : String :=
  let confidence := result.confidence
  let base := "🤖 **Trader Agent Decision**: " ++ action ++ "\n\n" ++
    "**Confidence Level**: " ++ env.fmt_pct confidence ++ "\n\n" ++
    "**Key Decision Factors**:\n"
  let body := String.join
    (((top_features.take 3).zip (top_values.take 3)).map (fun p =>
      "• **" ++ titleCase p.1 ++ "** " ++
      (if p.2 > 0 then "positively" else "negatively") ++
      " influenced this decision (impact: " ++ env.fmt3 (pyabs p.2) ++ ")\n"))
  let extra := if action == "optimize_portfolio" then
      "\n**Portfolio Optimization Reasoning**:\n" ++
      "• Risk-adjusted returns were analyzed across all assets\n" ++
      "• Market volatility and correlation patterns were considered\n" ++
      "• Diversification benefits were maximized\n"
    else ""
  base ++ body ++ extra

/-- Method `_generate_compliance_explanation` (lines 343-358). -/
def generate_compliance_explanation (action : String)
    (top_features : List String) (top_values : List ℚ) (result : ActionResult)
    (env : XEnv) : String :=
  let confidence := result.confidence
  let base := "🛡️ **Compliance Agent Decision**: " ++ action ++ "\n\n" ++
    "**Compliance Score**: " ++ env.fmt_pct confidence ++ "\n\n" ++
    "**Regulatory Analysis**:\n"
  let body := String.join
    (((top_features.take 3).zip (top_values.take 3)).map (fun p =>
      "• **" ++ titleCase p.1 ++ "** " ++
      (if p.2 > 0 then "increased" else "decreased") ++
      " compliance risk (score: " ++ env.fmt3 (pyabs p.2) ++ ")\n"))
  base ++ body ++ "\n**ZK Privacy Verification**: ✅ Verified\n" ++
    "**Regulatory Framework**: MiCA/SEC compliant\n"

/-- Method `_generate_supervisor_explanation` (lines 360-372). -/
def generate_supervisor_explanation (action : String)
    (top_features : List String) (top_values : List ℚ) (result : ActionResult)
    (env : XEnv) : String :=
  let confidence := result.confidence
  let base := "👁️ **Supervisor Agent Decision**: " ++ action ++ "\n\n" ++
    "**Oversight Confidence**: " ++ env.fmt_pct confidence ++ "\n\n" ++
    "**System Monitoring Results**:\n"
  let body := String.join
    (((top_features.take 3).zip (top_values.take 3)).map (fun p =>
      "• **" ++ titleCase p.1 ++ "** is " ++
      (if p.2 > 0 then "optimal" else "requires attention") ++
      " (score: " ++ env.fmt3 (pyabs p.2) ++ ")\n"))
  base ++ body

/-- Method `_generate_advisor_explanation` (lines 374-386). -/
def generate_advisor_explanation (action : String)
    (top_features : List String) (top_values : List ℚ) (result : ActionResult)
    (env : XEnv) : String :=
  let confidence := result.confidence
  let base := "🔮 **Advisor Agent Prediction**: " ++ action ++ "\n\n" ++
    "**Prediction Confidence**: " ++ env.fmt_pct confidence ++ "\n\n" ++
    "**Market Analysis Factors**:\n"
  let body := String.join
    (((top_features.take 3).zip (top_values.take 3)).map (fun p =>
      "• **" ++ titleCase p.1 ++ "** indicates " ++
      (if p.2 > 0 then "bullish" else "bearish") ++
      " sentiment (strength: " ++ env.fmt3 (pyabs p.2) ++ ")\n"))
  base ++ body

/-- Method `_generate_human_explanation` (lines 287-321); nothing in the body
raises, so its internal `except` fallback is unreachable.  The generic
branch drops the source string quotes around the action name. -/
def generate_human_explanation (st : XAIExplainer) (agent_type action : String)
    (shap_values : List ℚ) (result : ActionResult) (env : XEnv) : String :=
  let feature_names := (st.feature_names.lookup agent_type).getD []
  let top := if shap_values.length > 0 then topIndices shap_values 3 else []
  let top_features := top.filterMap (fun i =>
    if i < feature_names.length then feature_names.get? i else Option.none)
  let top_values := top.filterMap (fun i =>
    if i < shap_values.length then shap_values.get? i else Option.none)
  if agent_type == "trader" then
    generate_trader_explanation action top_features top_values result env
  else if agent_type == "compliance" then
    generate_compliance_explanation action top_features top_values result env
  else if agent_type == "supervisor" then
    generate_supervisor_explanation action top_features top_values result env
  else if agent_type == "advisor" then
    generate_advisor_explanation action top_features top_values result env
  else
    "Decision made by " ++ agent_type ++ " agent for action " ++ action ++
    " based on analysis of key factors."

/-- Method `XAIExplainer.explain_decision` (lines 83-123): create the missing
surrogate model, extract features, get SHAP values, render the
human-readable explanation, cache it (reading the event-loop clock), and
return it; any exception escaping those steps is caught at this boundary
and turned into the string `"Unable to generate explanation: " + str(e)`,
so the method always returns a string to its caller. -/
def explain_decision (st : XAIExplainer) (agent_type action : String)
    (parameters : Params) (result : ActionResult) (env : XEnv) :
    XAIExplainer × String :=
  let st1 := if (st.surrogate_models.lookup agent_type).isSome then st
             else create_surrogate_model st agent_type env
  let features := extract_features st1 agent_type parameters result env
  let pr := get_shap_explanation st1 agent_type features env
  let human := generate_human_explanation pr.1 agent_type action pr.2 result env
  match env.clock with
  | Except.ok t =>
      let entry : CacheEntry :=
        { agent_type := agent_type, action := action, shap_values := pr.2,
          human_explanation := human, features := features, timestamp := t }
      ({ pr.1 with explanation_cache :=
          dictInsert pr.1.explanation_cache env.explanation_id entry }, human)
  | Except.error e => (pr.1, "Unable to generate explanation: " ++ e)

/-! ## Shared concrete inputs for witnesses and counterexamples -/

/-- An oracle with zero draws and zero elapsed time. -/
def env0 : Env :=
  { elapsed := 0, risk_score := 0, allocations := [],
    expected_return_of := fun _ => 0, hist_var := fun _ => 0,
    hist_cvar := fun _ => 0, hist_vol := fun _ => 0, hist_mean := fun _ => 0,
    tradeDraw := 0, txid := "tx-0" }

/-- Parameters with every key absent. -/
def pEmpty : Params := {}

/-- The rebalance parameters of the spec scenario:
`target_allocations = {A: 0.6, B: 0.4}`, `min_trade_size = 100`. -/
def p4 : Params :=
  { target_allocations := [("A", 6/10), ("B", 4/10)], min_trade_size := some 100 }

/-- The treasury data of the spec scenario:
`current_allocations = {A: 0.5, B: 0.5}`, `total_value_usd = 10000`. -/
def t4 : TreasuryData :=
  { current_allocations := [("A", 1/2), ("B", 1/2)], total_value_usd := some 10000 }

/-- Valid trade parameters: buy 1000 of ETH. -/
def pTrade : Params :=
  { asset := some "ETH", action := some "buy", amount := some 1000 }

/-- An oracle whose `np.random.random()` trade draw is 0.01, a value the RNG
can return, making the simulated trade fail. -/
def envLowDraw : Env := { env0 with tradeDraw := 1/100 }

/-- An oracle whose trade draw is 0.5, making the simulated trade succeed. -/
def envHighDraw : Env := { env0 with tradeDraw := 1/2 }

/-- A registered call that deterministically succeeds (rebalance with
treasury data present), with elapsed time 2 seconds. -/
def cGood : CallInput :=
  { action := "rebalance", parameters := p4, treasury_data := some t4,
    env := { env0 with elapsed := 2 } }

/-- A call with an unregistered action name, with elapsed time 1 second. -/
def cBad : CallInput :=
  { action := "transfer_funds", parameters := pEmpty,
    treasury_data := Option.none, env := { env0 with elapsed := 1 } }

/-! ## Helper lemmas about the dispatcher -/

/-- Handler dispatch never touches any agent field other than
`performance_metrics.total_trades` (only `_execute_trade` increments it). -/
theorem dispatch_some_fields (self : TraderAgent) (action : String)
    (p : Params) (t : Option TreasuryData) (e : Env) (s1 : TraderAgent)
    (r : ActionResult) (h : self.dispatch action p t e = some (s1, r)) :
    s1.agent_id = self.agent_id ∧ s1.model = self.model ∧
    s1.is_trained = self.is_trained ∧
    s1.market_data_cache = self.market_data_cache ∧
    s1.last_predictions = self.last_predictions ∧
    s1.performance_metrics.total_requests =
      self.performance_metrics.total_requests ∧
    s1.performance_metrics.avg_response_time =
      self.performance_metrics.avg_response_time ∧
    s1.performance_metrics.successful_trades =
      self.performance_metrics.successful_trades ∧
    s1.performance_metrics.success_rate =
      self.performance_metrics.success_rate ∧
    s1.performance_metrics.total_pnl = self.performance_metrics.total_pnl ∧
    s1.performance_metrics.sharpe_ratio =
      self.performance_metrics.sharpe_ratio ∧
    s1.performance_metrics.max_drawdown =
      self.performance_metrics.max_drawdown := by
  unfold TraderAgent.dispatch at h
  split at h
  · simp only [Option.some.injEq, Prod.mk.injEq] at h
    obtain ⟨h1, -⟩ := h
    subst h1; simp
  · split at h
    · simp only [Option.some.injEq, Prod.mk.injEq] at h
      obtain ⟨h1, -⟩ := h
      subst h1; simp
    · split at h
      · simp only [Option.some.injEq, Prod.mk.injEq] at h
        obtain ⟨h1, -⟩ := h
        subst h1; simp
      · split at h
        · simp only [Option.some.injEq, Prod.mk.injEq] at h
          obtain ⟨h1, -⟩ := h
          subst h1; simp
        · split at h
          · unfold TraderAgent.execute_trade at h
            rcases hm : p.amount with - | q
            · rw [hm] at h
              simp only [Option.some.injEq, Prod.mk.injEq] at h
              obtain ⟨h1, -⟩ := h
              subst h1; simp
            · rw [hm] at h
              dsimp only at h
              split at h <;>
                (simp only [Option.some.injEq, Prod.mk.injEq] at h
                 obtain ⟨h1, -⟩ := h
                 subst h1; simp)
          · exact absurd h (by simp)

/-- Field equations of `updateMetricsAfter`. -/
theorem updateMetricsAfter_fields (s : TraderAgent) (b : Bool) (q : ℚ) :
    (updateMetricsAfter s b q).agent_id = s.agent_id ∧
    (updateMetricsAfter s b q).model = s.model ∧
    (updateMetricsAfter s b q).is_trained = s.is_trained ∧
    (updateMetricsAfter s b q).market_data_cache = s.market_data_cache ∧
    (updateMetricsAfter s b q).last_predictions = s.last_predictions ∧
    (updateMetricsAfter s b q).performance_metrics.total_requests =
      s.performance_metrics.total_requests ∧
    (updateMetricsAfter s b q).performance_metrics.total_trades =
      s.performance_metrics.total_trades ∧
    (updateMetricsAfter s b q).performance_metrics.successful_trades =
      s.performance_metrics.successful_trades + (if b then 1 else 0) ∧
    (updateMetricsAfter s b q).performance_metrics.avg_response_time =
      (s.performance_metrics.avg_response_time *
        ((s.performance_metrics.total_requests : ℚ) - 1) + q) /
        (s.performance_metrics.total_requests : ℚ) ∧
    (updateMetricsAfter s b q).performance_metrics.success_rate =
      ((s.performance_metrics.successful_trades + (if b then 1 else 0) : ℕ) : ℚ) /
        (s.performance_metrics.total_requests : ℚ) := by
  unfold updateMetricsAfter
  refine ⟨rfl, rfl, rfl, rfl, rfl, rfl, rfl, rfl, rfl, rfl⟩

/-- Sequences: running a call list appended with one more call. -/
theorem runCalls_append (a : TraderAgent) (l : List CallInput) (c : CallInput) :
    runCalls a (l ++ [c]) =
      ((runCalls a l).execute_action c.action c.parameters c.treasury_data
        c.env).1 := by
  simp [runCalls, List.foldl_append]

/-- After a call with a registered action, the metrics carry the incremented
request count, the running-mean response time, the conditional success
increment and the freshly recomputed success rate. -/
theorem execute_action_registered_metrics (self : TraderAgent)
    (action : String) (p : Params) (t : Option TreasuryData) (e : Env)
    (h : registered action = true) :
    ((self.execute_action action p t e).1).performance_metrics.total_requests =
      self.performance_metrics.total_requests + 1 ∧
    ((self.execute_action action p t e).1).performance_metrics.avg_response_time =
      (self.performance_metrics.avg_response_time *
        (((self.performance_metrics.total_requests + 1 : ℕ) : ℚ) - 1) + e.elapsed) /
        ((self.performance_metrics.total_requests + 1 : ℕ) : ℚ) ∧
    ((self.execute_action action p t e).1).performance_metrics.successful_trades =
      self.performance_metrics.successful_trades +
        (if ((self.execute_action action p t e).2).success then 1 else 0) ∧
    ((self.execute_action action p t e).1).performance_metrics.success_rate =
      ((((self.execute_action action p t e).1).performance_metrics.successful_trades : ℕ) : ℚ) /
        ((self.performance_metrics.total_requests + 1 : ℕ) : ℚ) := by
  simp only [registered, Bool.or_eq_true, beq_iff_eq] at h
  rcases h with ((((rfl | rfl) | rfl) | rfl) | rfl)
  · simp [TraderAgent.execute_action, TraderAgent.dispatch, updateMetricsAfter]
  · simp [TraderAgent.execute_action, TraderAgent.dispatch, updateMetricsAfter]
  · simp [TraderAgent.execute_action, TraderAgent.dispatch, updateMetricsAfter]
  · simp [TraderAgent.execute_action, TraderAgent.dispatch, updateMetricsAfter]
  · rcases hm : p.amount with - | q <;>
      simp [TraderAgent.execute_action, TraderAgent.dispatch,
        TraderAgent.execute_trade, updateMetricsAfter, hm] <;>
      split <;> simp

/-! ## Claim theorems -/

/-- C8: `execute_action` mutates only the `performance_metrics` struct; the
other agent fields (`agent_id`, `model`, `scaler`, `is_trained`,
`market_data_cache`, `last_predictions`) are unchanged by every call. -/
theorem execute_action_frame (self : TraderAgent) (action : String)
    (p : Params) (t : Option TreasuryData) (e : Env) :
    ((self.execute_action action p t e).1).agent_id = self.agent_id ∧
    ((self.execute_action action p t e).1).model = self.model ∧
    ((self.execute_action action p t e).1).scaler = self.scaler ∧
    ((self.execute_action action p t e).1).is_trained = self.is_trained ∧
    ((self.execute_action action p t e).1).market_data_cache =
      self.market_data_cache ∧
    ((self.execute_action action p t e).1).last_predictions =
      self.last_predictions := by
  unfold TraderAgent.execute_action
  dsimp only
  split
  · exact ⟨rfl, rfl, rfl, rfl, rfl, rfl⟩
  next s1 r heq =>
    have hf := dispatch_some_fields _ action p t e s1 r heq
    exact ⟨hf.1, hf.2.1, rfl, hf.2.2.1, hf.2.2.2.1, hf.2.2.2.2.1⟩

/-- C3: a call with an unregistered action name does not raise past the
dispatcher boundary; it returns a failed result with `success = false`,
confidence 0.0, and an error string that mentions the unknown action name. -/
theorem unknown_action_failed_result (self : TraderAgent) (action : String)
    (p : Params) (t : Option TreasuryData) (e : Env)
    (h : registered action = false) :
    ((self.execute_action action p t e).2).success = false ∧
    ((self.execute_action action p t e).2).confidence = 0 ∧
    ((self.execute_action action p t e).2).action = some action ∧
    ((self.execute_action action p t e).2).error =
      some ("Unknown action: " ++ action) ∧
    (∃ pre post, ((self.execute_action action p t e).2).error =
      some (pre ++ action ++ post)) := by
  simp only [registered, Bool.or_eq_false_iff] at h
  obtain ⟨⟨⟨⟨h1, h2⟩, h3⟩, h4⟩, h5⟩ := h
  refine ⟨?_, ?_, ?_, ?_, ?_⟩ <;>
    simp [TraderAgent.execute_action, TraderAgent.dispatch, h1, h2, h3, h4, h5]
  exact ⟨"Unknown action: ", "", by simp⟩

/-- Witness for C3 at the concrete unregistered action `"transfer_funds"`. -/
theorem unknown_action_failed_result_witness :
    (((mkTraderAgent "trader" false).execute_action "transfer_funds" pEmpty
        Option.none env0).2).success = false ∧
    (((mkTraderAgent "trader" false).execute_action "transfer_funds" pEmpty
        Option.none env0).2).confidence = 0 ∧
    (((mkTraderAgent "trader" false).execute_action "transfer_funds" pEmpty
        Option.none env0).2).action = some "transfer_funds" ∧
    (((mkTraderAgent "trader" false).execute_action "transfer_funds" pEmpty
        Option.none env0).2).error =
      some ("Unknown action: " ++ "transfer_funds") ∧
    (∃ pre post,
      (((mkTraderAgent "trader" false).execute_action "transfer_funds" pEmpty
        Option.none env0).2).error = some (pre ++ "transfer_funds" ++ post)) :=
  unknown_action_failed_result (mkTraderAgent "trader" false) "transfer_funds"
    pEmpty Option.none env0 (by simp [registered])

/-- C10: every trade call whose parameters reach the simulated execution
(the `amount` key present) increments `total_trades` by exactly 1, whether
the simulated trade is reported as successful or as failed. -/
theorem execute_trade_increments_total_trades (self : TraderAgent)
    (p : Params) (t : Option TreasuryData) (e : Env) (q : ℚ)
    (h : p.amount = some q) :
    ((self.execute_action "execute_trade" p t e).1).performance_metrics.total_trades =
      self.performance_metrics.total_trades + 1 := by
  simp [TraderAgent.execute_action, TraderAgent.dispatch,
    TraderAgent.execute_trade, h, updateMetricsAfter]
  split <;> simp

/-- Witness for C10: a concrete buy of 1000 ETH on a fresh agent. -/
theorem execute_trade_increments_total_trades_witness :
    (((mkTraderAgent "trader" false).execute_action "execute_trade" pTrade
        Option.none envHighDraw).1).performance_metrics.total_trades =
      (mkTraderAgent "trader" false).performance_metrics.total_trades + 1 :=
  execute_trade_increments_total_trades (mkTraderAgent "trader" false) pTrade
    Option.none envHighDraw 1000 rfl

/-- Appending the elapsed time of one more call. -/
theorem sumElapsed_append (l : List CallInput) (c : CallInput) :
    sumElapsed (l ++ [c]) = sumElapsed l + c.env.elapsed := by
  simp [sumElapsed]

/-- C1 (amended): over any sequence of calls whose actions are all
registered, `success_rate` equals `successful_trades / total_requests` after
every call (the `successful_trades` counter is what the code increments once
per successful request); before any call `total_requests = 0` and
`success_rate` keeps its initial value 0, with no division performed.  (On
an unknown-action call the code skips the recomputation, see the
counterexample.) -/
theorem success_rate_registered_invariant (cs : List CallInput)
    (hreg : ∀ c ∈ cs, registered c.action = true) :
    (cs = [] →
      (runCalls (mkTraderAgent "trader" false) cs).performance_metrics.total_requests = 0 ∧
      (runCalls (mkTraderAgent "trader" false) cs).performance_metrics.success_rate = 0) ∧
    (cs ≠ [] →
      0 < (runCalls (mkTraderAgent "trader" false) cs).performance_metrics.total_requests ∧
      (runCalls (mkTraderAgent "trader" false) cs).performance_metrics.success_rate =
        ((runCalls (mkTraderAgent "trader" false) cs).performance_metrics.successful_trades : ℚ) /
        ((runCalls (mkTraderAgent "trader" false) cs).performance_metrics.total_requests : ℚ)) := by
  constructor
  · rintro rfl
    simp [runCalls, mkTraderAgent, initMetrics]
  · intro hne
    rcases (List.eq_nil_or_concat cs).resolve_left hne with ⟨L, c, rfl⟩
    rw [List.concat_eq_append] at hreg ⊢
    have hc : registered c.action = true := hreg c (by simp)
    obtain ⟨s1, -, -, s4⟩ :=
      execute_action_registered_metrics (runCalls (mkTraderAgent "trader" false) L)
        c.action c.parameters c.treasury_data c.env hc
    rw [runCalls_append]
    refine ⟨by rw [s1]; omega, ?_⟩
    rw [s4, s1]

/-- Witness for C1 at the one-call registered sequence `[cGood]`. -/
theorem success_rate_registered_invariant_witness :
    ([cGood] = ([] : List CallInput) →
      (runCalls (mkTraderAgent "trader" false) [cGood]).performance_metrics.total_requests = 0 ∧
      (runCalls (mkTraderAgent "trader" false) [cGood]).performance_metrics.success_rate = 0) ∧
    ([cGood] ≠ ([] : List CallInput) →
      0 < (runCalls (mkTraderAgent "trader" false) [cGood]).performance_metrics.total_requests ∧
      (runCalls (mkTraderAgent "trader" false) [cGood]).performance_metrics.success_rate =
        ((runCalls (mkTraderAgent "trader" false) [cGood]).performance_metrics.successful_trades : ℚ) /
        ((runCalls (mkTraderAgent "trader" false) [cGood]).performance_metrics.total_requests : ℚ)) :=
  success_rate_registered_invariant [cGood]
    (by intro c hc; simp only [List.mem_singleton] at hc; subst hc; rfl)

/-- The metrics after a successful rebalance followed by an unknown-action
call. -/
def metricsGoodThenBad : PerformanceMetrics :=
  (runCalls (mkTraderAgent "trader" false) [cGood, cBad]).performance_metrics

/-- C1 counterexample: on the sequence [registered success, unknown action]
the second call (which returns `success = false`) increments
`total_requests` to 2 with `successful_trades = 1`, but `success_rate` keeps
its previous value 1 instead of 1/2 — the claimed identity fails after that
call. -/
theorem success_rate_unknown_action_counterexample :
    metricsGoodThenBad.total_requests = 2 ∧
    metricsGoodThenBad.successful_trades = 1 ∧
    metricsGoodThenBad.success_rate = 1 ∧
    metricsGoodThenBad.success_rate ≠
      (metricsGoodThenBad.successful_trades : ℚ) /
      (metricsGoodThenBad.total_requests : ℚ) := by
  have h : metricsGoodThenBad.total_requests = 2 ∧
      metricsGoodThenBad.successful_trades = 1 ∧
      metricsGoodThenBad.success_rate = 1 := by
    simp [metricsGoodThenBad, runCalls, TraderAgent.execute_action,
      TraderAgent.dispatch, rebalance_portfolio, updateMetricsAfter,
      cGood, cBad, p4, t4, env0, pEmpty, mkTraderAgent, initMetrics]
  obtain ⟨h1, h2, h3⟩ := h
  refine ⟨h1, h2, h3, ?_⟩
  rw [h1, h2, h3]
  norm_num

/-- C2 (amended): over any sequence of calls whose actions are all
registered, `total_requests` counts the calls and `avg_response_time` is the
arithmetic mean of the elapsed times, maintained by the running-mean update
`new_avg = (old_avg * (total_requests - 1) + elapsed) / total_requests`.
(An unknown-action call increments `total_requests` but skips the update,
see the counterexample.) -/
theorem avg_response_time_mean_registered (cs : List CallInput)
    (hreg : ∀ c ∈ cs, registered c.action = true) :
    (runCalls (mkTraderAgent "trader" false) cs).performance_metrics.total_requests = cs.length ∧
    (runCalls (mkTraderAgent "trader" false) cs).performance_metrics.avg_response_time *
      (cs.length : ℚ) = sumElapsed cs ∧
    (cs ≠ [] →
      (runCalls (mkTraderAgent "trader" false) cs).performance_metrics.avg_response_time =
        sumElapsed cs / (cs.length : ℚ)) := by
  induction cs using List.reverseRecOn with
  | nil => simp [runCalls, mkTraderAgent, initMetrics, sumElapsed]
  | append_singleton L c ih =>
      have hL : ∀ x ∈ L, registered x.action = true :=
        fun x hx => hreg x (by simp [hx])
      have hc : registered c.action = true := hreg c (by simp)
      obtain ⟨ih1, ih2, -⟩ := ih hL
      obtain ⟨s1, s2, -, -⟩ :=
        execute_action_registered_metrics (runCalls (mkTraderAgent "trader" false) L)
          c.action c.parameters c.treasury_data c.env hc
      rw [runCalls_append]
      have hlen : ((L ++ [c]).length : ℚ) = (L.length : ℚ) + 1 := by
        push_cast [List.length_append, List.length_singleton]
        ring
      have hne : ((L.length : ℚ) + 1) ≠ 0 := by positivity
      have havg :
          ((runCalls (mkTraderAgent "trader" false) L).execute_action c.action
            c.parameters c.treasury_data c.env).1.performance_metrics.avg_response_time *
            ((L ++ [c]).length : ℚ) = sumElapsed (L ++ [c]) := by
        rw [s2, ih1, hlen, sumElapsed_append, ← ih2]
        push_cast
        field_simp
      refine ⟨by rw [s1, ih1]; simp, havg, ?_⟩
      intro _
      rw [eq_div_iff (by rw [hlen]; exact hne)]
      exact havg

/-- Witness for C2 at the one-call registered sequence `[cGood]` (elapsed
time 2, mean 2). -/
theorem avg_response_time_mean_registered_witness :
    (runCalls (mkTraderAgent "trader" false) [cGood]).performance_metrics.total_requests =
      [cGood].length ∧
    (runCalls (mkTraderAgent "trader" false) [cGood]).performance_metrics.avg_response_time *
      (([cGood] : List CallInput).length : ℚ) = sumElapsed [cGood] ∧
    ([cGood] ≠ ([] : List CallInput) →
      (runCalls (mkTraderAgent "trader" false) [cGood]).performance_metrics.avg_response_time =
        sumElapsed [cGood] / (([cGood] : List CallInput).length : ℚ)) :=
  avg_response_time_mean_registered [cGood]
    (by intro c hc; simp only [List.mem_singleton] at hc; subst hc; rfl)

/-- The metrics after a single unknown-action call with elapsed time 1. -/
def metricsBadOnly : PerformanceMetrics :=
  (runCalls (mkTraderAgent "trader" false) [cBad]).performance_metrics

/-- C2 counterexample: a single unknown-action call with elapsed time 1
increments `total_requests` to 1 but leaves `avg_response_time` at 0, while
the arithmetic mean of the elapsed times is 1 — the running-mean update is
not applied on that call. -/
theorem avg_response_time_unknown_action_counterexample :
    metricsBadOnly.total_requests = 1 ∧
    metricsBadOnly.avg_response_time = 0 ∧
    sumElapsed [cBad] / (([cBad] : List CallInput).length : ℚ) = 1 ∧
    metricsBadOnly.avg_response_time ≠
      sumElapsed [cBad] / (([cBad] : List CallInput).length : ℚ) := by
  have h : metricsBadOnly.total_requests = 1 ∧
      metricsBadOnly.avg_response_time = 0 := by
    simp [metricsBadOnly, runCalls, TraderAgent.execute_action,
      TraderAgent.dispatch, cBad, pEmpty, env0, mkTraderAgent, initMetrics]
  have hs : sumElapsed [cBad] / (([cBad] : List CallInput).length : ℚ) = 1 := by
    simp [sumElapsed, cBad, env0]
  exact ⟨h.1, h.2, hs, by rw [h.2, hs]; norm_num⟩

/-- The result of dispatching the spec rebalance scenario: targets
`{A: 0.6, B: 0.4}`, currents `{A: 0.5, B: 0.5}`, total value 10000, minimum
trade size 100. -/
def rebalanceScenarioResult : ActionResult :=
  ((mkTraderAgent "trader" false).execute_action "rebalance" p4 (some t4) env0).2

/-- C4 counterexample: asset B also crosses the minimum trade size
(`|-0.1 * 10000| = 1000 > 100`), so the scenario produces two trades, not
the single buy of A the claim states. -/
theorem rebalance_scenario_counterexample :
    rebalanceScenarioResult.tradesList.length = 2 ∧
    rebalanceScenarioResult.tradesList ≠
      [{ asset := "A", action := "buy", amount := 1000,
         current_allocation := 1/2, target_allocation := 3/5 }] := by
  have h : rebalanceScenarioResult.tradesList =
      [{ asset := "A", action := "buy", amount := 1000,
         current_allocation := 1/2, target_allocation := 3/5 },
       { asset := "B", action := "sell", amount := 1000,
         current_allocation := 1/2, target_allocation := 2/5 }] := by
    simp [rebalanceScenarioResult, TraderAgent.execute_action,
      TraderAgent.dispatch, rebalance_portfolio, ActionResult.tradesList,
      p4, t4, env0, mkTraderAgent, initMetrics, pyabs, List.lookup,
      List.filterMap]
    norm_num
  rw [h]
  simp

/-- C4 (amended): the scenario returns a successful result whose trade list
holds exactly two trades — a buy of value 1000 for A and a sell of value
1000 for B — since both differences cross the 100 minimum trade size. -/
theorem rebalance_scenario_two_trades :
    rebalanceScenarioResult.success = true ∧
    rebalanceScenarioResult.action = some "rebalance" ∧
    rebalanceScenarioResult.tradesList =
      [{ asset := "A", action := "buy", amount := 1000,
         current_allocation := 1/2, target_allocation := 3/5 },
       { asset := "B", action := "sell", amount := 1000,
         current_allocation := 1/2, target_allocation := 2/5 }] := by
  refine ⟨?_, ?_, ?_⟩ <;>
    (simp [rebalanceScenarioResult, TraderAgent.execute_action,
       TraderAgent.dispatch, rebalance_portfolio, ActionResult.tradesList,
       p4, t4, env0, mkTraderAgent, initMetrics, pyabs, List.lookup,
       List.filterMap]
     try norm_num)

/-- First call of the C7 scenario: a rebalance that succeeds. -/
def threeCallRun1 : TraderAgent × ActionResult :=
  (mkTraderAgent "trader" false).execute_action "rebalance" p4 (some t4) env0

/-- Second call of the C7 scenario: `optimize_portfolio`, whose handler
raises a `TypeError` internally (caught and converted to a failed result). -/
def threeCallRun2 : TraderAgent × ActionResult :=
  (threeCallRun1.1).execute_action "optimize_portfolio" pEmpty (some t4) env0

/-- Third call of the C7 scenario: another successful rebalance. -/
def threeCallRun3 : TraderAgent × ActionResult :=
  (threeCallRun2.1).execute_action "rebalance" p4 (some t4) env0

/-- C7: three dispatched actions whose second handler throws internally
leave the dispatcher uncrashed with `total_requests = 3`,
`successful_trades = 2` and `success_rate = 2/3` (the exact value behind the
approximate 0.667); the second result is a caught failure with an error
string and confidence 0. -/
theorem three_call_internal_failure_scenario :
    (threeCallRun2.2).success = false ∧
    (threeCallRun2.2).confidence = 0 ∧
    (threeCallRun2.2).error.isSome = true ∧
    (threeCallRun3.1).performance_metrics.total_requests = 3 ∧
    (threeCallRun3.1).performance_metrics.successful_trades = 2 ∧
    (threeCallRun3.1).performance_metrics.success_rate = 2/3 := by
  refine ⟨?_, ?_, ?_, ?_, ?_, ?_⟩ <;>
    (simp [threeCallRun1, threeCallRun2, threeCallRun3,
       TraderAgent.execute_action, TraderAgent.dispatch, rebalance_portfolio,
       TraderAgent.optimize_portfolio, handlerFailure, updateMetricsAfter,
       p4, t4, env0, pEmpty, mkTraderAgent, initMetrics, pyabs, List.lookup,
       List.filterMap]
     try norm_num)

/-- The ActionResult contract: a failed result carries confidence 0.0 and an
error string; a successful result carries no error and echoes the requested
action name in its `action` field. -/
def resultContract (requested : String) (r : ActionResult) : Bool :=
  if r.success then (r.error == Option.none) && (r.action == some requested)
  else (decide (r.confidence = 0)) && r.error.isSome

/-- The contract for the always-failing optimize handler. -/
theorem optimize_portfolio_contract (self : TraderAgent) (p : Params)
    (t : Option TreasuryData) (e : Env) :
    resultContract "optimize_portfolio" (self.optimize_portfolio p t e) = true := by
  unfold TraderAgent.optimize_portfolio
  cases self.model <;> simp [handlerFailure, resultContract]

/-- The contract for the rebalance handler. -/
theorem rebalance_portfolio_contract (p : Params) (t : Option TreasuryData) :
    resultContract "rebalance" (rebalance_portfolio p t) = true := by
  unfold rebalance_portfolio
  cases t <;> simp [handlerFailure, resultContract]

/-- The contract for the risk-analysis handler. -/
theorem analyze_risk_contract (p : Params) (t : Option TreasuryData)
    (e : Env) :
    resultContract "risk_analysis" (analyze_risk p t e) = true := by
  cases t with
  | none =>
      simp only [analyze_risk]
      split <;> simp [handlerFailure, resultContract]
  | some td =>
      simp only [analyze_risk]
      split <;> simp [handlerFailure, resultContract]

/-- The contract for the yield-prediction handler. -/
theorem predict_yield_contract (p : Params) (e : Env) :
    resultContract "yield_prediction" (predict_yield p e) = true := by
  simp only [predict_yield]
  split
  · simp [handlerFailure, resultContract]
  · split <;> simp [handlerFailure, resultContract]

/-- The contract for the trade handler. -/
theorem execute_trade_contract (self : TraderAgent) (p : Params) (e : Env) :
    resultContract "execute_trade" ((self.execute_trade p e).2) = true := by
  unfold TraderAgent.execute_trade
  rcases hm : p.amount with - | q
  · simp [handlerFailure, resultContract]
  · dsimp only
    split <;> simp [handlerFailure, resultContract]

/-- C5 (amended): every result returned by `execute_action` satisfies the
contract `success = false → confidence = 0 ∧ error set` and
`success = true → error absent ∧ action field = requested action`.  (A
handler-internal failure omits the `action` field, so the unconditional
action-field part of the original claim fails — see the counterexample.) -/
theorem execute_action_result_contract (self : TraderAgent) (action : String)
    (p : Params) (t : Option TreasuryData) (e : Env) :
    resultContract action ((self.execute_action action p t e).2) = true := by
  by_cases h : registered action = true
  · simp only [registered, Bool.or_eq_true, beq_iff_eq] at h
    rcases h with ((((rfl | rfl) | rfl) | rfl) | rfl)
    · simp only [TraderAgent.execute_action, TraderAgent.dispatch]
      simp
      exact optimize_portfolio_contract _ p t e
    · simp only [TraderAgent.execute_action, TraderAgent.dispatch]
      simp
      exact rebalance_portfolio_contract p t
    · simp only [TraderAgent.execute_action, TraderAgent.dispatch]
      simp
      exact analyze_risk_contract p t e
    · simp only [TraderAgent.execute_action, TraderAgent.dispatch]
      simp
      exact predict_yield_contract p e
    · simp only [TraderAgent.execute_action, TraderAgent.dispatch]
      simp
      exact execute_trade_contract _ p e
  · have h' : registered action = false := by
      simpa using h
    simp only [registered, Bool.or_eq_false_iff] at h'
    obtain ⟨⟨⟨⟨h1, h2⟩, h3⟩, h4⟩, h5⟩ := h'
    simp [TraderAgent.execute_action, TraderAgent.dispatch, h1, h2, h3, h4,
      h5, resultContract]

/-- A handler-internal failure result: rebalance dispatched with no treasury
data (the handler catches the `AttributeError` and returns the failure dict
without an `action` key). -/
def handlerFailureResult : ActionResult :=
  ((mkTraderAgent "trader" false).execute_action "rebalance" pEmpty
    Option.none env0).2

/-- C5 counterexample: a result returned by `execute_action` whose `action`
field is absent rather than carrying the requested action name. -/
theorem result_action_field_counterexample :
    handlerFailureResult.success = false ∧
    handlerFailureResult.action = Option.none ∧
    handlerFailureResult.action ≠ some "rebalance" := by
  refine ⟨?_, ?_, ?_⟩ <;>
    simp [handlerFailureResult, TraderAgent.execute_action,
      TraderAgent.dispatch, rebalance_portfolio, handlerFailure, pEmpty,
      env0, mkTraderAgent, initMetrics]

/-- Setting a dict key never empties the dict. -/
theorem dictInsert_ne_nil {α : Type} (l : List (String × α)) (k : String)
    (v : α) : dictInsert l k v ≠ [] := by
  unfold dictInsert
  split
  next hsome =>
    cases l with
    | nil => simp at hsome
    | cons a as => simp
  next => simp

/-- Folding dict insertions over a nonempty key list (or onto a nonempty
dict) yields a nonempty dict. -/
theorem foldl_dictInsert_ne_nil {α : Type} (g : String → α) :
    ∀ (ss : List String) (d : List (String × α)),
      (ss = [] → d ≠ []) →
      ss.foldl (fun acc s => dictInsert acc s (g s)) d ≠ [] := by
  intro ss
  induction ss with
  | nil =>
      intro d h
      simpa using h rfl
  | cons s rest ih =>
      intro d h
      simp only [List.foldl_cons]
      exact ih _ (fun _ => dictInsert_ne_nil _ _ _)

/-- With treasury data present the rebalance handler always succeeds with
confidence 0.85. -/
theorem rebalance_portfolio_success (p : Params) (td : TreasuryData) :
    (rebalance_portfolio p (some td)).success = true ∧
    (rebalance_portfolio p (some td)).confidence = 85/100 := by
  simp [rebalance_portfolio]

/-- With treasury data present and a non-negative time horizon the
risk-analysis handler always succeeds with confidence 0.90. -/
theorem analyze_risk_success (p : Params) (td : TreasuryData) (e : Env)
    (h : 0 ≤ p.time_horizon.getD 30) :
    (analyze_risk p (some td) e).success = true ∧
    (analyze_risk p (some td) e).confidence = 90/100 := by
  simp only [analyze_risk]
  rw [if_neg]
  · simp
  · rintro ⟨-, h2⟩
    omega

/-- With a nonempty (or defaulted) strategy list and a nonzero time horizon
the yield-prediction handler always succeeds with confidence 0.80. -/
theorem predict_yield_success (p : Params) (e : Env)
    (h1 : p.strategies.getD ["conservative", "moderate", "aggressive"] ≠ [])
    (h2 : p.time_horizon.getD 365 ≠ 0) :
    (predict_yield p e).success = true ∧
    (predict_yield p e).confidence = 8/10 := by
  simp only [predict_yield]
  rw [if_neg (by rintro ⟨-, hz⟩; exact h2 hz)]
  split
  next heq =>
    exact absurd heq
      (foldl_dictInsert_ne_nil _ _ _ (fun hs => absurd hs h1))
  next => simp

/-- With the `amount` key present, the trade handler succeeds with
confidence 0.95 exactly when the simulated draw exceeds 0.05, and otherwise
returns the insufficient-liquidity failure. -/
theorem execute_trade_outcome (self : TraderAgent) (p : Params) (e : Env)
    (q : ℚ) (h : p.amount = some q) :
    (e.tradeDraw > 5/100 →
      ((self.execute_trade p e).2).success = true ∧
      ((self.execute_trade p e).2).confidence = 95/100) ∧
    (¬ e.tradeDraw > 5/100 →
      ((self.execute_trade p e).2).success = false ∧
      ((self.execute_trade p e).2).confidence = 0) := by
  simp only [TraderAgent.execute_trade, h]
  constructor
  · intro hd
    rw [if_pos hd]
    exact ⟨rfl, rfl⟩
  · intro hd
    rw [if_neg hd]
    exact ⟨rfl, rfl⟩

/-- The optimize handler always fails (its body raises a `TypeError` for
every input). -/
theorem optimize_portfolio_always_fails (self : TraderAgent) (p : Params)
    (t : Option TreasuryData) (e : Env) :
    (self.optimize_portfolio p t e).success = false ∧
    (self.optimize_portfolio p t e).confidence = 0 := by
  unfold TraderAgent.optimize_portfolio
  cases self.model <;> simp [handlerFailure]

/-- The result returned for each registered action, as a function of the
handler alone (the handlers read none of the metrics the dispatcher
updates). -/
theorem execute_action_result_eqs (self : TraderAgent) (p : Params)
    (t : Option TreasuryData) (e : Env) :
    (self.execute_action "optimize_portfolio" p t e).2 =
      self.optimize_portfolio p t e ∧
    (self.execute_action "rebalance" p t e).2 = rebalance_portfolio p t ∧
    (self.execute_action "risk_analysis" p t e).2 = analyze_risk p t e ∧
    (self.execute_action "yield_prediction" p t e).2 = predict_yield p e ∧
    (self.execute_action "execute_trade" p t e).2 =
      (self.execute_trade p e).2 := by
  refine ⟨?_, ?_, ?_, ?_, ?_⟩
  · cases hm : self.model <;>
      simp [TraderAgent.execute_action, TraderAgent.dispatch,
        TraderAgent.optimize_portfolio, hm]
  · simp [TraderAgent.execute_action, TraderAgent.dispatch]
  · simp [TraderAgent.execute_action, TraderAgent.dispatch]
  · simp [TraderAgent.execute_action, TraderAgent.dispatch]
  · rcases hm : p.amount with - | q <;>
      simp [TraderAgent.execute_action, TraderAgent.dispatch,
        TraderAgent.execute_trade, hm] <;> split <;> simp

/-- C6 (amended): with treasury data present, `rebalance` always succeeds,
`risk_analysis` succeeds for non-negative time horizons, and
`yield_prediction` succeeds for a nonempty (or defaulted) strategy list and
nonzero time horizon — each with confidence in [0, 1]; `execute_trade` with
valid parameters succeeds (confidence 0.95) exactly when the simulated
random draw exceeds 0.05 and otherwise returns a failed result; and
`optimize_portfolio` always returns a failed result (its handler raises a
`TypeError` on every input). -/
theorem registered_actions_success_profile (self : TraderAgent) (p : Params)
    (td : TreasuryData) (e : Env) :
    (((self.execute_action "rebalance" p (some td) e).2).success = true ∧
      0 ≤ ((self.execute_action "rebalance" p (some td) e).2).confidence ∧
      ((self.execute_action "rebalance" p (some td) e).2).confidence ≤ 1) ∧
    (0 ≤ p.time_horizon.getD 30 →
      ((self.execute_action "risk_analysis" p (some td) e).2).success = true ∧
      0 ≤ ((self.execute_action "risk_analysis" p (some td) e).2).confidence ∧
      ((self.execute_action "risk_analysis" p (some td) e).2).confidence ≤ 1) ∧
    (p.strategies.getD ["conservative", "moderate", "aggressive"] ≠ [] →
      p.time_horizon.getD 365 ≠ 0 →
      ((self.execute_action "yield_prediction" p (some td) e).2).success = true ∧
      0 ≤ ((self.execute_action "yield_prediction" p (some td) e).2).confidence ∧
      ((self.execute_action "yield_prediction" p (some td) e).2).confidence ≤ 1) ∧
    (∀ q, p.amount = some q → e.tradeDraw > 5/100 →
      ((self.execute_action "execute_trade" p (some td) e).2).success = true ∧
      ((self.execute_action "execute_trade" p (some td) e).2).confidence =
        95/100) ∧
    (∀ q, p.amount = some q → ¬ e.tradeDraw > 5/100 →
      ((self.execute_action "execute_trade" p (some td) e).2).success = false) ∧
    ((self.execute_action "optimize_portfolio" p (some td) e).2).success =
      false := by
  obtain ⟨e1, e2, e3, e4, e5⟩ :=
    execute_action_result_eqs self p (some td) e
  refine ⟨?_, ?_, ?_, ?_, ?_, ?_⟩
  · rw [e2]
    obtain ⟨h1, h2⟩ := rebalance_portfolio_success p td
    exact ⟨h1, by rw [h2]; norm_num, by rw [h2]; norm_num⟩
  · intro h
    rw [e3]
    obtain ⟨h1, h2⟩ := analyze_risk_success p td e h
    exact ⟨h1, by rw [h2]; norm_num, by rw [h2]; norm_num⟩
  · intro hs ht
    rw [e4]
    obtain ⟨h1, h2⟩ := predict_yield_success p e hs ht
    exact ⟨h1, by rw [h2]; norm_num, by rw [h2]; norm_num⟩
  · intro q hq hd
    rw [e5]
    exact (execute_trade_outcome self p e q hq).1 hd
  · intro q hq hd
    rw [e5]
    exact ((execute_trade_outcome self p e q hq).2 hd).1
  · rw [e1]
    exact (optimize_portfolio_always_fails self p (some td) e).1

/-- Witness for C6: a concrete trade with valid parameters and a winning
draw succeeds with confidence 0.95. -/
theorem registered_actions_success_profile_witness :
    (((mkTraderAgent "trader" false).execute_action "execute_trade" pTrade
        (some t4) envHighDraw).2).success = true ∧
    (((mkTraderAgent "trader" false).execute_action "execute_trade" pTrade
        (some t4) envHighDraw).2).confidence = 95/100 :=
  ((registered_actions_success_profile (mkTraderAgent "trader" false) pTrade
      t4 envHighDraw).2.2.2.1) 1000 rfl (by norm_num [envHighDraw, env0])

/-- The result of a trade with valid parameters whose simulated draw is 0.01
(a value `np.random.random()` can return). -/
def tradeFailResult : ActionResult :=
  ((mkTraderAgent "trader" false).execute_action "execute_trade" pTrade
    (some t4) envLowDraw).2

/-- C6 counterexample: a registered action with a valid parameter set whose
result has `success = false` — the simulated 5% failure path of
`execute_trade`. -/
theorem execute_trade_random_failure_counterexample :
    tradeFailResult.success = false ∧ tradeFailResult.confidence = 0 := by
  have he := (execute_action_result_eqs (mkTraderAgent "trader" false) pTrade
    (some t4) envLowDraw).2.2.2.2
  have ho := (execute_trade_outcome (mkTraderAgent "trader" false) pTrade
    envLowDraw 1000 rfl).2 (by norm_num [envLowDraw, env0])
  simp only [tradeFailResult, he]
  exact ho

/-- C9: `explain_decision` never raises to its caller and always returns a
string: when the body completes (the event-loop clock read during caching
succeeds) the returned string is the rendered human explanation — internal
surrogate-model and SHAP failures having been absorbed earlier into
zero-vector fallbacks — and when an internal step raises, the boundary
handler returns the `"Unable to generate explanation: ..."` fallback
string, so the explainer can never fail the dispatched action. -/
theorem explain_decision_degrades (st : XAIExplainer)
    (agent_type action : String) (parameters : Params) (result : ActionResult)
    (env : XEnv) :
    (∀ t, env.clock = Except.ok t →
      (explain_decision st agent_type action parameters result env).2 =
        generate_human_explanation
          (get_shap_explanation
            (if (st.surrogate_models.lookup agent_type).isSome then st
             else create_surrogate_model st agent_type env)
            agent_type
            (extract_features
              (if (st.surrogate_models.lookup agent_type).isSome then st
               else create_surrogate_model st agent_type env)
              agent_type parameters result env) env).1
          agent_type action
          (get_shap_explanation
            (if (st.surrogate_models.lookup agent_type).isSome then st
             else create_surrogate_model st agent_type env)
            agent_type
            (extract_features
              (if (st.surrogate_models.lookup agent_type).isSome then st
               else create_surrogate_model st agent_type env)
              agent_type parameters result env) env).2
          result env) ∧
    (∀ msg, env.clock = Except.error msg →
      (explain_decision st agent_type action parameters result env).2 =
        "Unable to generate explanation: " ++ msg) := by
  constructor
  · intro t ht
    simp [explain_decision, ht]
  · intro msg hmsg
    simp [explain_decision, hmsg]

/-- An explainer-call oracle whose event-loop clock read raises. -/
def xenvErr : XEnv :=
  { explanation_id := "id-0", surrogate_create := Except.ok (),
    shap_call := Except.ok [], clock := Except.error "event loop is closed",
    randn_trader := [], randn_compliance := [], randn_supervisor := [],
    randn_advisor := [], log_fn := fun _ => 0, fmt_pct := fun _ => "0.0%",
    fmt3 := fun _ => "0.000" }

/-- Witness for C9: with a raising clock the call still returns a string,
namely the fallback explanation. -/
theorem explain_decision_degrades_witness :
    (explain_decision mkXAIExplainer "trader" "rebalance" pEmpty
      (handlerFailure "boom") xenvErr).2 =
      "Unable to generate explanation: " ++ "event loop is closed" :=
  (explain_decision_degrades mkXAIExplainer "trader" "rebalance" pEmpty
    (handlerFailure "boom") xenvErr).2 "event loop is closed" rfl

end SentinelAI
